import Mathlib

/-!
Shallow embedding of the polybeat rhythm-game core
(`src/client/game/App.tsx`): frequency bands, onset detection state,
the note motion model, spawning (`trySpawnNote`), tap judgment
(`handleTap`) and the per-frame note update loop (`update`).

Times are simulation-clock milliseconds, positions are screen pixels;
both are modelled as rationals (JS numbers used without bit-level
tricks).  Scores are integers, combos are naturals.  The DOM element
attached to a note is an opaque handle the core only tests for
presence, so it is modelled as a `Bool` flag.
-/

namespace Polybeat

/-- `type Shape = 'circle' | 'square' | 'triangle'`. -/
inductive Shape where
  | circle
  | square
  | triangle
deriving DecidableEq, Repr

/-- `type Band = 'bass' | 'mid' | 'treble'`. -/
inductive Band where
  | bass
  | mid
  | treble
deriving DecidableEq, Repr

/-- `getShapeFromBand` from App.tsx. -/
def getShapeFromBand (band : Band) : Shape :=
  if band = Band.bass then Shape.circle
  else if band = Band.treble then Shape.triangle
  else Shape.square

def HIT_WINDOW_MS : ℚ := 420
def NOTE_SIZE : ℚ := 60
def EXPECTED_SHAPE_SIZE : ℚ := 100
def HIT_CENTER_BIAS : ℚ := 0
def HIT_ZONE_OFFSET : ℚ := 100
def MIN_NOTE_SPACING : ℚ := 40
def TRAVEL_TIME : ℚ := 2000
def MIN_SILENCE_GAP : ℚ := 250
def ENERGY_THRESHOLD : ℚ := 90
def SHAPE_LOCK_DURATION : ℚ := 10000
def PEAK_MULTIPLIER : ℚ := 105 / 100
def PEAK_DELTA : ℚ := 2
def BAND_COOLDOWN_MS : ℚ := 80
def MAX_IDLE_MS : ℚ := 500

/-- `getTravelTimeForBand` from App.tsx (bass ×1.15, treble ×0.85). -/
def getTravelTimeForBand (band : Band) : ℚ :=
  if band = Band.bass then TRAVEL_TIME * (115 / 100)
  else if band = Band.treble then TRAVEL_TIME * (85 / 100)
  else TRAVEL_TIME

/-- A `Note` from App.tsx.  `hasElement` models presence of the opaque
`element` DOM handle (the core only ever tests it for truthiness). -/
structure Note where
  id : ℤ
  shape : Shape
  spawnTime : ℚ
  hitTime : ℚ
  travelTime : ℚ
  hit : Bool
  missed : Bool
  hasElement : Bool
deriving DecidableEq, Repr

/-- `GameState` from App.tsx (the `stateRef` record). -/
structure GameState where
  notes : List Note
  score : ℤ
  combo : ℕ
  activeShape : Shape
  lastNoteId : ℤ
  lastSpawnTime : ℚ
  lastShapeChangeTime : ℚ
deriving DecidableEq, Repr

/-- Per-band onset state, one entry of `bandEnergyRef`. -/
structure BandState where
  avg : ℚ
  last : ℚ
  lastTrigger : ℚ
deriving DecidableEq, Repr

/-- The `bandEnergyRef` record: one `BandState` per band. -/
structure BandEnergyMap where
  bass : BandState
  mid : BandState
  treble : BandState
deriving DecidableEq, Repr

def BandEnergyMap.get (m : BandEnergyMap) (b : Band) : BandState :=
  match b with
  | Band.bass => m.bass
  | Band.mid => m.mid
  | Band.treble => m.treble

def BandEnergyMap.set (m : BandEnergyMap) (b : Band) (s : BandState) : BandEnergyMap :=
  match b with
  | Band.bass => { m with bass := s }
  | Band.mid => { m with mid := s }
  | Band.treble => { m with treble := s }

/-- Initial `stateRef` value (the active band is drawn at random; it is
passed here as a parameter). -/
def initialState (initialBand : Band) : GameState :=
  { notes := []
    score := 0
    combo := 0
    activeShape := getShapeFromBand initialBand
    lastNoteId := 0
    lastSpawnTime := -MIN_SILENCE_GAP
    lastShapeChangeTime := 0 }

/-- The bin sub-range ratios per band in `getBandEnergy`. -/
def bandRatios (band : Band) : ℚ × ℚ :=
  match band with
  | Band.bass => (0, 15 / 100)
  | Band.mid => (15 / 100, 1 / 2)
  | Band.treble => (1 / 2, 1)

/-- `start = Math.floor(range * startRatio)` in `getBandEnergy`. -/
def bandStart (band : Band) (range : ℕ) : ℤ :=
  ⌊(range : ℚ) * (bandRatios band).1⌋

/-- `end = Math.max(start + 1, Math.floor(range * endRatio))` in
`getBandEnergy`. -/
def bandEnd (band : Band) (range : ℕ) : ℤ :=
  max (bandStart band range + 1) ⌊(range : ℚ) * (bandRatios band).2⌋

/-- `getBandEnergy` from App.tsx: mean magnitude over the band's bin
sub-range of the spectrum snapshot (`dataArray[i] ?? 0` is `getD _ 0`). -/
def getBandEnergy (data : List ℚ) (band : Band) : ℚ :=
  let range := data.length
  let start := (bandStart band range).toNat
  let stop := (bandEnd band range).toNat
  let sum := ((List.range (stop - start)).map (fun i => data.getD (start + i) 0)).sum
  sum / ((stop : ℚ) - (start : ℚ))

/-- `hitProgress` as computed inside `getNotePosition`:
`clamp(hitDistance/totalDistance, 0.01, 0.99)`. -/
def hitProgress (screenHeight : ℚ) : ℚ :=
  let hitCenterY := screenHeight - HIT_ZONE_OFFSET - EXPECTED_SHAPE_SIZE / 2 - HIT_CENTER_BIAS
  let offScreenCenterY := screenHeight + NOTE_SIZE + 100
  let startTopY := -NOTE_SIZE - 20
  let startCenterY := startTopY + NOTE_SIZE / 2
  let totalDistance := offScreenCenterY - startCenterY
  let hitDistance := hitCenterY - startCenterY
  max (1 / 100) (min (99 / 100) (hitDistance / totalDistance))

/-- `getNotePosition` from App.tsx: the motion model, mapping current
time (and viewport height) to the note's top-Y coordinate. -/
def getNotePosition (note : Note) (currentTime screenHeight : ℚ) : ℚ :=
  let elapsed := currentTime - note.spawnTime
  let offScreenCenterY := screenHeight + NOTE_SIZE + 100
  let startTopY := -NOTE_SIZE - 20
  let startCenterY := startTopY + NOTE_SIZE / 2
  let totalDistance := offScreenCenterY - startCenterY
  let totalTravelTime := note.travelTime / hitProgress screenHeight
  if elapsed ≤ 0 then startTopY
  else
    let progress := min 1 (elapsed / totalTravelTime)
    let centerY := startCenterY + progress * totalDistance
    centerY - NOTE_SIZE / 2

/-- `getHitboxMetrics` from App.tsx, computed-geometry branch (the other
branch reads the rendering adapter's DOM rectangle, which is out of the
core's scope; absent a rectangle the code computes exactly this). -/
structure HitboxMetrics where
  hitCenterY : ℚ
  hitboxRadius : ℚ
  hitTop : ℚ
  hitBottom : ℚ
deriving DecidableEq, Repr

def getHitboxMetrics (screenHeight : ℚ) : HitboxMetrics :=
  let hitCenterY := screenHeight - HIT_ZONE_OFFSET - EXPECTED_SHAPE_SIZE / 2 - HIT_CENTER_BIAS
  let hitboxRadius := EXPECTED_SHAPE_SIZE / 2
  { hitCenterY := hitCenterY
    hitboxRadius := hitboxRadius
    hitTop := hitCenterY - hitboxRadius
    hitBottom := hitCenterY + hitboxRadius }

/-- `wouldOverlap` from App.tsx: would a hypothetical note spawned at
`newNoteTime` project within `MIN_NOTE_SPACING` of some existing
pending note at the evaluation instant `currentTime`? -/
def wouldOverlap (notes : List Note) (newNoteTime currentTime travelTime screenHeight : ℚ) :
    Bool :=
  let newNoteY := getNotePosition
    { id := 0
      shape := Shape.circle
      spawnTime := newNoteTime
      hitTime := newNoteTime + travelTime
      travelTime := travelTime
      hit := false
      missed := false
      hasElement := false }
    currentTime screenHeight
  notes.any (fun note =>
    if note.hit || note.missed then false
    else
      let existingY := getNotePosition note currentTime screenHeight
      decide (|newNoteY - existingY| < MIN_NOTE_SPACING))

/-- `explodeAndClearActiveNotes` from App.tsx, state effect only: drop
from the list every pending note whose shape differs from the active
shape and that still owns an element (the animation it schedules only
disposes the element). -/
def explodeAndClearActiveNotes (activeShape : Shape) (notes : List Note) : List Note :=
  notes.filter (fun note =>
    note.hit || note.missed || decide (note.shape = activeShape) || !note.hasElement)

/-- The candidate acceptance test in `handleTap`'s loop over
`activeNotes`: the four `continue` guards (entry slack, top tighten,
spatial distance, time window) all pass. -/
def tapAccepts (currentTime screenHeight : ℚ) (note : Note) : Bool :=
  let m := getHitboxMetrics screenHeight
  let noteRadius := NOTE_SIZE / 2
  let requiredOverlap := NOTE_SIZE * (4 / 10)
  let maxCenterDistance := m.hitboxRadius + noteRadius - requiredOverlap
  let extraBottomAllowance := m.hitboxRadius * (1 / 2)
  let entrySlack := NOTE_SIZE * (1 / 10)
  let topTighten := m.hitboxRadius * (1 / 4)
  let timeDiff := |currentTime - note.hitTime|
  let noteTopY := getNotePosition note currentTime screenHeight
  let noteCenterY := noteTopY + noteRadius
  let noteBottomY := noteTopY + NOTE_SIZE
  let distanceFromHit := |noteCenterY - m.hitCenterY|
  let allowedDistance :=
    if noteCenterY > m.hitCenterY then maxCenterDistance + extraBottomAllowance
    else maxCenterDistance
  !decide (noteBottomY < m.hitTop - entrySlack) &&
    !decide (noteTopY < m.hitTop + topTighten) &&
    !decide (distanceFromHit > allowedDistance) &&
    !decide (timeDiff > HIT_WINDOW_MS)

/-- The closest-note search in `handleTap`: walk the note list (the
`activeNotes` filter becomes the pending guard), keeping the accepted
note of strictly smallest `timeDiff`, first such note winning ties.
The accumulator carries the note's index so that marking it hit can be
expressed as a positional update. -/
def findClosestAux (currentTime screenHeight : ℚ) :
    List Note → ℕ → Option (ℕ × Note × ℚ) → Option (ℕ × Note × ℚ)
  | [], _, acc => acc
  | note :: rest, i, acc =>
    let acc' :=
      if note.hit || note.missed then acc
      else if tapAccepts currentTime screenHeight note then
        let timeDiff := |currentTime - note.hitTime|
        match acc with
        | none => some (i, note, timeDiff)
        | some (j, m, d) =>
          if timeDiff < d then some (i, note, timeDiff) else some (j, m, d)
      else acc
    findClosestAux currentTime screenHeight rest (i + 1) acc'

/-- `handleTap` from App.tsx, state effect on `GameState` and on the
track band (`trackBandRef`).  The randomly drawn replacement band is
injected as `nextBand`.  `explodeSingleNote` on the hit note only
disposes its element, so it becomes `hasElement := false`. -/
def handleTap (currentTime screenHeight : ℚ) (nextBand : Band) (trackBand : Band)
    (s : GameState) : GameState × Band :=
  match findClosestAux currentTime screenHeight s.notes 0 none with
  | some (i, closestNote, _) =>
    if closestNote.shape = s.activeShape then
      let notes1 := s.notes.set i { closestNote with hit := true, hasElement := false }
      let score1 := s.score + 100 * ((s.combo : ℤ) + 1)
      let combo1 := s.combo + 1
      let notes2 := explodeAndClearActiveNotes s.activeShape notes1
      if currentTime - s.lastShapeChangeTime ≥ SHAPE_LOCK_DURATION then
        let shape2 := getShapeFromBand nextBand
        let notes3 := explodeAndClearActiveNotes shape2 notes2
        ({ s with notes := notes3, score := score1, combo := combo1,
                  activeShape := shape2, lastShapeChangeTime := currentTime },
         nextBand)
      else
        let notes3 := explodeAndClearActiveNotes s.activeShape notes2
        ({ s with notes := notes3, score := score1, combo := combo1 }, trackBand)
    else
      let notes3 := explodeAndClearActiveNotes s.activeShape s.notes
      ({ s with notes := notes3, combo := 0 }, trackBand)
  | none =>
    let combo1 := if 0 < s.combo then 0 else s.combo
    let notes3 := explodeAndClearActiveNotes s.activeShape s.notes
    ({ s with notes := notes3, combo := combo1 }, trackBand)

/-- `trySpawnNote` from App.tsx.  The spectrum read for the active band
is injected as `energy`; the track band (`trackBandRef`) as
`trackBand`.  Returns the updated game state and band-energy map (the
created note's DOM element gives it `hasElement := true`). -/
def trySpawnNote (currentTime energy screenHeight : ℚ) (trackBand : Band)
    (s : GameState) (bands : BandEnergyMap) : GameState × BandEnergyMap :=
  if currentTime - s.lastSpawnTime < MIN_SILENCE_GAP then (s, bands)
  else
    let band := trackBand
    let bandState := bands.get band
    let avg := bandState.avg * (7 / 10) + energy * (3 / 10)
    let delta := energy - bandState.last
    let bands1 := bands.set band { bandState with avg := avg, last := energy }
    let isPeak :=
      decide (energy > ENERGY_THRESHOLD) &&
        decide (energy > avg * PEAK_MULTIPLIER) && decide (delta > PEAK_DELTA)
    let isIdle := decide (currentTime - s.lastSpawnTime > MAX_IDLE_MS)
    let hasActiveNotes := s.notes.any (fun note => !note.hit && !note.missed)
    let allowFallback := isIdle && !hasActiveNotes
    if !isPeak && !allowFallback then (s, bands1)
    else
      if isPeak && decide (currentTime - bandState.lastTrigger < BAND_COOLDOWN_MS) then
        (s, bands1)
      else
        let bands2 :=
          if isPeak then
            bands1.set band { bands1.get band with lastTrigger := currentTime }
          else bands1
        let spawnTime := currentTime
        let travelTime := getTravelTimeForBand band
        let hitTime := spawnTime + travelTime
        if wouldOverlap s.notes spawnTime currentTime travelTime screenHeight then
          (s, bands2)
        else
          let notes1 := explodeAndClearActiveNotes s.activeShape s.notes
          let note : Note :=
            { id := s.lastNoteId + 1
              shape := getShapeFromBand band
              spawnTime := spawnTime
              hitTime := hitTime
              travelTime := travelTime
              hit := false
              missed := false
              hasElement := true }
          ({ s with notes := notes1 ++ [note]
                    lastNoteId := s.lastNoteId + 1
                    lastSpawnTime := currentTime },
           bands2)

/-- The per-note loop of `update` in App.tsx (reverse iteration with
in-place removal becomes structural recursion; each note's outcome
depends only on that note, and the score decrements and combo resets
commute, so the traversal direction is immaterial).  Returns the
surviving note list, the new score and combo, and the published
`hittableNow` flag. -/
def updateNotes (currentTime screenHeight : ℚ) (activeShape : Shape) :
    List Note → ℤ → ℕ → List Note × ℤ × ℕ × Bool
  | [], score, combo => ([], score, combo, false)
  | note :: rest, score, combo =>
    let y := getNotePosition note currentTime screenHeight
    let offScreenThreshold := screenHeight + NOTE_SIZE + 50
    if y > offScreenThreshold then
      updateNotes currentTime screenHeight activeShape rest score combo
    else if note.hit then
      if currentTime - note.hitTime > 200 then
        updateNotes currentTime screenHeight activeShape rest score combo
      else
        let (ns, s1, c1, h1) := updateNotes currentTime screenHeight activeShape rest score combo
        (note :: ns, s1, c1, h1)
    else if note.missed then
      let (ns, s1, c1, h1) := updateNotes currentTime screenHeight activeShape rest score combo
      (note :: ns, s1, c1, h1)
    else
      let m := getHitboxMetrics screenHeight
      let noteRadius := NOTE_SIZE / 2
      let requiredOverlap := NOTE_SIZE * (4 / 10)
      let maxCenterDistance := m.hitboxRadius + noteRadius - requiredOverlap
      let extraBottomAllowance := m.hitboxRadius * (1 / 2)
      let entrySlack := NOTE_SIZE * (1 / 10)
      let topTighten := m.hitboxRadius * (1 / 4)
      let noteCenterY := y + noteRadius
      let noteBottomY := y + NOTE_SIZE
      let distanceFromHit := |noteCenterY - m.hitCenterY|
      let allowedDistance :=
        if noteCenterY > m.hitCenterY then maxCenterDistance + extraBottomAllowance
        else maxCenterDistance
      let timeDiff := |currentTime - note.hitTime|
      let hittableHere :=
        decide (timeDiff ≤ HIT_WINDOW_MS) &&
          decide (distanceFromHit ≤ allowedDistance) &&
          decide (noteBottomY ≥ m.hitTop - entrySlack) &&
          decide (y ≥ m.hitTop + topTighten)
      if decide (currentTime > note.hitTime + HIT_WINDOW_MS) &&
          decide (distanceFromHit > allowedDistance) &&
          decide (noteBottomY < m.hitTop - entrySlack) then
        let score1 := if note.shape = activeShape then max 0 (score - 50) else score
        let combo1 := if note.shape = activeShape then 0 else combo
        let (ns, s1, c1, h1) :=
          updateNotes currentTime screenHeight activeShape rest score1 combo1
        ({ note with missed := true } :: ns, s1, c1, h1 || hittableHere)
      else
        let (ns, s1, c1, h1) := updateNotes currentTime screenHeight activeShape rest score combo
        (note :: ns, s1, c1, h1 || hittableHere)

/-- A pending square distractor on the track while the active shape is
circle (bass): concrete state used to witness the purge behaviour. -/
def spawnScenarioState : GameState :=
  { notes := [{ id := 1, shape := Shape.square, spawnTime := 0, hitTime := 2300,
                travelTime := 2300, hit := false, missed := false, hasElement := true }]
    score := 0
    combo := 0
    activeShape := Shape.circle
    lastNoteId := 1
    lastSpawnTime := 0
    lastShapeChangeTime := 0 }

def spawnScenarioBands : BandEnergyMap :=
  { bass := { avg := 0, last := 0, lastTrigger := -80 }
    mid := { avg := 0, last := 0, lastTrigger := -80 }
    treble := { avg := 0, last := 0, lastTrigger := -80 } }

lemma hitProgress_ge (screenHeight : ℚ) : 1 / 100 ≤ hitProgress screenHeight :=
  le_max_left _ _

lemma hitProgress_le (screenHeight : ℚ) : hitProgress screenHeight ≤ 99 / 100 := by
  unfold hitProgress
  exact max_le (by norm_num) (min_le_left _ _)

lemma hitProgress_pos (screenHeight : ℚ) : 0 < hitProgress screenHeight :=
  lt_of_lt_of_le (by norm_num) (hitProgress_ge screenHeight)

/-- C9: the geometry and band computations are total: `hitProgress` is
clamped into [0.01, 0.99] (hence non-zero, so the division
`travelTime / hitProgress` in `getNotePosition` is well-defined), and
every band's bin sub-range satisfies `end ≥ start + 1`, so the
band-mean division in `getBandEnergy` never divides by zero. -/
theorem geometry_and_band_total (screenHeight : ℚ) (band : Band) (range : ℕ) :
    (1 / 100 ≤ hitProgress screenHeight ∧ hitProgress screenHeight ≤ 99 / 100 ∧
      hitProgress screenHeight ≠ 0) ∧
    bandStart band range + 1 ≤ bandEnd band range ∧
    (bandStart band range).toNat + 1 ≤ (bandEnd band range).toNat := by
  have h0 : 0 ≤ bandStart band range := by
    apply Int.floor_nonneg.mpr
    have : (0 : ℚ) ≤ (range : ℚ) := Nat.cast_nonneg range
    cases band <;> simp only [bandStart, bandRatios] <;> nlinarith
  have h1 : bandStart band range + 1 ≤ bandEnd band range := le_max_left _ _
  exact ⟨⟨hitProgress_ge screenHeight, hitProgress_le screenHeight,
    ne_of_gt (hitProgress_pos screenHeight)⟩, h1, by omega⟩

/-- C7: the motion model returns `startTopY` at `now = spawnTime`, and
for a fixed note (positive travel time) and viewport (non-negative
height) the position is non-decreasing in `now`. -/
theorem getNotePosition_spawn_monotone (note : Note) (screenHeight t1 t2 : ℚ)
    (htravel : 0 < note.travelTime) (hscreen : 0 ≤ screenHeight) (ht : t1 ≤ t2) :
    getNotePosition note note.spawnTime screenHeight = -NOTE_SIZE - 20 ∧
    getNotePosition note t1 screenHeight ≤ getNotePosition note t2 screenHeight := by
  have httt : 0 < note.travelTime / hitProgress screenHeight :=
    div_pos htravel (hitProgress_pos screenHeight)
  constructor
  · simp [getNotePosition]
  · simp only [getNotePosition]
    have hD : (0 : ℚ) ≤
        screenHeight + NOTE_SIZE + 100 - (-NOTE_SIZE - 20 + NOTE_SIZE / 2) := by
      simp only [NOTE_SIZE]; linarith
    split_ifs with h1 h2 h2
    · exact le_refl _
    · have he2 : 0 < t2 - note.spawnTime := lt_of_not_le h2
      have hmin : 0 ≤ min 1 ((t2 - note.spawnTime) / (note.travelTime / hitProgress screenHeight)) :=
        le_min (by norm_num) (le_of_lt (div_pos he2 httt))
      have := mul_nonneg hmin hD
      linarith
    · exact absurd (le_trans (sub_le_sub_right ht note.spawnTime) h2) h1
    · have hmm : min 1 ((t1 - note.spawnTime) / (note.travelTime / hitProgress screenHeight)) ≤
          min 1 ((t2 - note.spawnTime) / (note.travelTime / hitProgress screenHeight)) := by
        apply min_le_min le_rfl
        exact div_le_div_of_nonneg_right (sub_le_sub_right ht note.spawnTime) (le_of_lt httt)
      have := mul_le_mul_of_nonneg_right hmm hD
      linarith

/-- Witness for C7 at a concrete note, geometry and pair of times. -/
theorem getNotePosition_spawn_monotone_witness :
    (0 : ℚ) < 2300 ∧ (0 : ℚ) ≤ 800 ∧ (100 : ℚ) ≤ 200 ∧
    (getNotePosition
        { id := 1, shape := Shape.circle, spawnTime := 0, hitTime := 2300,
          travelTime := 2300, hit := false, missed := false, hasElement := true }
        0 800 = -NOTE_SIZE - 20 ∧
      getNotePosition
        { id := 1, shape := Shape.circle, spawnTime := 0, hitTime := 2300,
          travelTime := 2300, hit := false, missed := false, hasElement := true }
        100 800 ≤
      getNotePosition
        { id := 1, shape := Shape.circle, spawnTime := 0, hitTime := 2300,
          travelTime := 2300, hit := false, missed := false, hasElement := true }
        200 800) :=
  ⟨by norm_num, by norm_num, by norm_num,
    getNotePosition_spawn_monotone _ 800 100 200 (by norm_num) (by norm_num) (by norm_num)⟩

lemma updateNotes_score_nonneg (ct sh : ℚ) (activeShape : Shape) :
    ∀ (notes : List Note) (score : ℤ) (combo : ℕ), 0 ≤ score →
      0 ≤ (updateNotes ct sh activeShape notes score combo).2.1 := by
  intro notes
  induction notes with
  | nil => intro score combo h; simpa [updateNotes] using h
  | cons note rest ih =>
    intro score combo h
    rw [updateNotes]
    dsimp only
    split_ifs <;>
      first
        | exact ih score combo h
        | exact ih _ 0 (le_max_left _ _)

/-- C6: `score ≥ 0` holds initially and is preserved by tap resolution
(`handleTap`), the per-frame note update (`updateNotes`) and spawning
(`trySpawnNote`): hits only add `100×(combo+1) > 0`, the miss penalty
is clamped at 0, and spawning never touches the score. -/
theorem score_nonneg (initialBand : Band) (ct sh energy : ℚ) (nextBand trackBand : Band)
    (s : GameState) (bands : BandEnergyMap) (activeShape : Shape)
    (notes : List Note) (score : ℤ) (combo : ℕ)
    (hs : 0 ≤ s.score) (hsc : 0 ≤ score) :
    0 ≤ (initialState initialBand).score ∧
    0 ≤ (handleTap ct sh nextBand trackBand s).1.score ∧
    0 ≤ (trySpawnNote ct energy sh trackBand s bands).1.score ∧
    0 ≤ (updateNotes ct sh activeShape notes score combo).2.1 := by
  refine ⟨le_refl 0, ?_, ?_, updateNotes_score_nonneg ct sh activeShape notes score combo hsc⟩
  · unfold handleTap
    rcases hfind : findClosestAux ct sh s.notes 0 none with _ | ⟨i, closestNote, d⟩
    · simpa using hs
    · dsimp only
      split_ifs with hshape hlock
      · have hc : (0 : ℤ) ≤ (s.combo : ℤ) := Int.ofNat_nonneg s.combo
        simp only []
        linarith
      · have hc : (0 : ℤ) ≤ (s.combo : ℤ) := Int.ofNat_nonneg s.combo
        simp only []
        linarith
      · simpa using hs
  · unfold trySpawnNote
    dsimp only
    split_ifs <;> simpa using hs

/-- Witness for C6 at concrete arguments. -/
theorem score_nonneg_witness :
    (0 : ℤ) ≤ (initialState Band.bass).score ∧ (0 : ℤ) ≤ (0 : ℤ) ∧
    (0 ≤ (initialState Band.bass).score ∧
      0 ≤ (handleTap 0 800 Band.mid Band.bass (initialState Band.bass)).1.score ∧
      0 ≤ (trySpawnNote 0 0 800 Band.bass (initialState Band.bass)
            { bass := { avg := 0, last := 0, lastTrigger := -80 },
              mid := { avg := 0, last := 0, lastTrigger := -80 },
              treble := { avg := 0, last := 0, lastTrigger := -80 } }).1.score ∧
      0 ≤ (updateNotes 0 800 Shape.circle [] 0 0).2.1) :=
  ⟨by decide, by decide,
    score_nonneg Band.bass 0 800 0 Band.mid Band.bass (initialState Band.bass)
      { bass := { avg := 0, last := 0, lastTrigger := -80 },
        mid := { avg := 0, last := 0, lastTrigger := -80 },
        treble := { avg := 0, last := 0, lastTrigger := -80 } }
      Shape.circle [] 0 0 (by decide) (by decide)⟩

/-- C4: when a hypothetical note spawned at `now` would project within
`MIN_NOTE_SPACING` of some existing pending note, `trySpawnNote` leaves
the Notes list completely unchanged: no note is appended and no
existing note is cleared. -/
theorem trySpawn_overlap_rejected (ct energy sh : ℚ) (trackBand : Band)
    (s : GameState) (bands : BandEnergyMap)
    (hov : wouldOverlap s.notes ct ct (getTravelTimeForBand trackBand) sh = true) :
    (trySpawnNote ct energy sh trackBand s bands).1.notes = s.notes := by
  unfold trySpawnNote
  dsimp only
  split_ifs <;> rfl

/-- Witness for C4: the hypothetical note spawned at the same instant as
an existing pending note projects 0 px away from it. -/
theorem trySpawn_overlap_rejected_witness :
    wouldOverlap
        [{ id := 1, shape := Shape.circle, spawnTime := 500, hitTime := 2800,
           travelTime := 2300, hit := false, missed := false, hasElement := true }]
        500 500 (getTravelTimeForBand Band.bass) 800 = true ∧
    (trySpawnNote 500 100 800 Band.bass
        { notes := [{ id := 1, shape := Shape.circle, spawnTime := 500, hitTime := 2800,
                      travelTime := 2300, hit := false, missed := false, hasElement := true }],
          score := 0, combo := 0, activeShape := Shape.circle,
          lastNoteId := 1, lastSpawnTime := 0, lastShapeChangeTime := 0 }
        { bass := { avg := 0, last := 0, lastTrigger := -80 },
          mid := { avg := 0, last := 0, lastTrigger := -80 },
          treble := { avg := 0, last := 0, lastTrigger := -80 } }).1.notes =
      [{ id := 1, shape := Shape.circle, spawnTime := 500, hitTime := 2800,
         travelTime := 2300, hit := false, missed := false, hasElement := true }] :=
  ⟨by norm_num [wouldOverlap, getNotePosition, hitProgress, NOTE_SIZE, MIN_NOTE_SPACING,
      HIT_ZONE_OFFSET, EXPECTED_SHAPE_SIZE, HIT_CENTER_BIAS, getTravelTimeForBand, TRAVEL_TIME],
    trySpawn_overlap_rejected 500 100 800 Band.bass
      { notes := [{ id := 1, shape := Shape.circle, spawnTime := 500, hitTime := 2800,
                    travelTime := 2300, hit := false, missed := false, hasElement := true }],
        score := 0, combo := 0, activeShape := Shape.circle,
        lastNoteId := 1, lastSpawnTime := 0, lastShapeChangeTime := 0 }
      { bass := { avg := 0, last := 0, lastTrigger := -80 },
        mid := { avg := 0, last := 0, lastTrigger := -80 },
        treble := { avg := 0, last := 0, lastTrigger := -80 } }
      (by norm_num [wouldOverlap, getNotePosition, hitProgress, NOTE_SIZE, MIN_NOTE_SPACING,
        HIT_ZONE_OFFSET, EXPECTED_SHAPE_SIZE, HIT_CENTER_BIAS, getTravelTimeForBand, TRAVEL_TIME])⟩

lemma BandEnergyMap.get_set_self (m : BandEnergyMap) (b : Band) (s : BandState) :
    (m.set b s).get b = s := by
  cases b <;> rfl

/-- C10: past the silence gap, `trySpawnNote` always writes the EMA
`avg` and the `last` sample for the active band, but `lastTrigger`
changes only for an accepted peak outside the cooldown window (it is
then set to `now`); in particular a fallback (non-peak) spawn leaves
`lastTrigger` untouched. -/
theorem trySpawn_bandState_effects (ct energy sh : ℚ) (trackBand : Band)
    (s : GameState) (bands : BandEnergyMap)
    (hgap : MIN_SILENCE_GAP ≤ ct - s.lastSpawnTime) :
    ((trySpawnNote ct energy sh trackBand s bands).2.get trackBand).avg =
        (bands.get trackBand).avg * (7 / 10) + energy * (3 / 10) ∧
    ((trySpawnNote ct energy sh trackBand s bands).2.get trackBand).last = energy ∧
    (¬(energy > ENERGY_THRESHOLD ∧
        energy > ((bands.get trackBand).avg * (7 / 10) + energy * (3 / 10)) * PEAK_MULTIPLIER ∧
        energy - (bands.get trackBand).last > PEAK_DELTA) →
      ((trySpawnNote ct energy sh trackBand s bands).2.get trackBand).lastTrigger =
        (bands.get trackBand).lastTrigger) ∧
    (((trySpawnNote ct energy sh trackBand s bands).2.get trackBand).lastTrigger ≠
        (bands.get trackBand).lastTrigger →
      (energy > ENERGY_THRESHOLD ∧
        energy > ((bands.get trackBand).avg * (7 / 10) + energy * (3 / 10)) * PEAK_MULTIPLIER ∧
        energy - (bands.get trackBand).last > PEAK_DELTA) ∧
      BAND_COOLDOWN_MS ≤ ct - (bands.get trackBand).lastTrigger ∧
      ((trySpawnNote ct energy sh trackBand s bands).2.get trackBand).lastTrigger = ct) := by
  have hgap' : ¬(ct - s.lastSpawnTime < MIN_SILENCE_GAP) := not_lt.mpr hgap
  unfold trySpawnNote
  dsimp only
  rw [if_neg hgap']
  split_ifs with h1 h2 h3 h4 h5 <;>
    simp_all [BandEnergyMap.get_set_self, decide_eq_true_eq, not_lt]

/-- Witness for C10 at concrete arguments (gap satisfied, clear peak). -/
theorem trySpawn_bandState_effects_witness :
    MIN_SILENCE_GAP ≤ (300 : ℚ) - (0 : ℚ) ∧
    ((trySpawnNote 300 100 800 Band.bass
        { notes := [], score := 0, combo := 0, activeShape := Shape.circle,
          lastNoteId := 0, lastSpawnTime := 0, lastShapeChangeTime := 0 }
        { bass := { avg := 0, last := 0, lastTrigger := -80 },
          mid := { avg := 0, last := 0, lastTrigger := -80 },
          treble := { avg := 0, last := 0, lastTrigger := -80 } }).2.get Band.bass).avg =
      (({ bass := { avg := 0, last := 0, lastTrigger := -80 },
          mid := { avg := 0, last := 0, lastTrigger := -80 },
          treble := { avg := 0, last := 0, lastTrigger := -80 } } :
            BandEnergyMap).get Band.bass).avg * (7 / 10) + 100 * (3 / 10) ∧
    ((trySpawnNote 300 100 800 Band.bass
        { notes := [], score := 0, combo := 0, activeShape := Shape.circle,
          lastNoteId := 0, lastSpawnTime := 0, lastShapeChangeTime := 0 }
        { bass := { avg := 0, last := 0, lastTrigger := -80 },
          mid := { avg := 0, last := 0, lastTrigger := -80 },
          treble := { avg := 0, last := 0, lastTrigger := -80 } }).2.get Band.bass).last =
      100 := by
  have h := trySpawn_bandState_effects 300 100 800 Band.bass
    { notes := [], score := 0, combo := 0, activeShape := Shape.circle,
      lastNoteId := 0, lastSpawnTime := 0, lastShapeChangeTime := 0 }
    { bass := { avg := 0, last := 0, lastTrigger := -80 },
      mid := { avg := 0, last := 0, lastTrigger := -80 },
      treble := { avg := 0, last := 0, lastTrigger := -80 } }
    (by norm_num [MIN_SILENCE_GAP])
  exact ⟨by norm_num [MIN_SILENCE_GAP], h.1, h.2.1⟩

/-- Counterexample to C3: at `now = 501` with `lastSpawnTime = -250`
(silence gap and idle both satisfied), an empty Notes list, and a clear
peak candidate (`energy = 100`) whose band cooldown is still running
(`lastTrigger = 490`), `trySpawnNote` returns without creating any
note: the cooldown suppression exits before the fallback path, so the
Notes list does NOT grow by one. -/
theorem trySpawn_cooldown_blocks_fallback_cex :
    ¬((501 : ℚ) - (-250 : ℚ) < MIN_SILENCE_GAP) ∧
    ((100 : ℚ) > ENERGY_THRESHOLD ∧
      (100 : ℚ) > ((0 : ℚ) * (7 / 10) + 100 * (3 / 10)) * PEAK_MULTIPLIER ∧
      (100 : ℚ) - 0 > PEAK_DELTA) ∧
    ((501 : ℚ) - 490 < BAND_COOLDOWN_MS) ∧
    ((501 : ℚ) - (-250 : ℚ) > MAX_IDLE_MS) ∧
    (trySpawnNote 501 100 800 Band.bass
        { notes := [], score := 0, combo := 0, activeShape := Shape.circle,
          lastNoteId := 0, lastSpawnTime := -250, lastShapeChangeTime := 0 }
        { bass := { avg := 0, last := 0, lastTrigger := 490 },
          mid := { avg := 0, last := 0, lastTrigger := -80 },
          treble := { avg := 0, last := 0, lastTrigger := -80 } }).1.notes.length = 0 := by
  refine ⟨by norm_num [MIN_SILENCE_GAP], ⟨by norm_num [ENERGY_THRESHOLD],
    by norm_num [PEAK_MULTIPLIER], by norm_num [PEAK_DELTA]⟩,
    by norm_num [BAND_COOLDOWN_MS], by norm_num [MAX_IDLE_MS], ?_⟩
  norm_num [trySpawnNote, MIN_SILENCE_GAP, ENERGY_THRESHOLD, PEAK_MULTIPLIER, PEAK_DELTA,
    BAND_COOLDOWN_MS, MAX_IDLE_MS, BandEnergyMap.get, BandEnergyMap.set]

/-- C3 as amended: when the current sample is a peak candidate still
inside the per-band cooldown window, `trySpawnNote` rejects the spawn
outright — the idle fallback does not rescue a cooldown-suppressed
peak, and the Notes list is unchanged. -/
theorem trySpawn_cooldown_suppression_rejects (ct energy sh : ℚ) (trackBand : Band)
    (s : GameState) (bands : BandEnergyMap)
    (hgap : ¬(ct - s.lastSpawnTime < MIN_SILENCE_GAP))
    (hpeak : energy > ENERGY_THRESHOLD ∧
      energy > ((bands.get trackBand).avg * (7 / 10) + energy * (3 / 10)) * PEAK_MULTIPLIER ∧
      energy - (bands.get trackBand).last > PEAK_DELTA)
    (hcool : ct - (bands.get trackBand).lastTrigger < BAND_COOLDOWN_MS) :
    (trySpawnNote ct energy sh trackBand s bands).1.notes = s.notes := by
  unfold trySpawnNote
  dsimp only
  rw [if_neg hgap]
  have hp : (decide (energy > ENERGY_THRESHOLD) &&
      decide (energy > ((bands.get trackBand).avg * (7 / 10) + energy * (3 / 10)) *
        PEAK_MULTIPLIER) &&
      decide (energy - (bands.get trackBand).last > PEAK_DELTA)) = true := by
    simp [hpeak.1, hpeak.2.1, hpeak.2.2]
  rw [hp]
  simp [hcool]

/-- Witness for the amended C3 at the counterexample input. -/
theorem trySpawn_cooldown_suppression_rejects_witness :
    ¬((501 : ℚ) - (-250 : ℚ) < MIN_SILENCE_GAP) ∧
    (trySpawnNote 501 100 800 Band.bass
        { notes := [], score := 0, combo := 0, activeShape := Shape.circle,
          lastNoteId := 0, lastSpawnTime := -250, lastShapeChangeTime := 0 }
        { bass := { avg := 0, last := 0, lastTrigger := 490 },
          mid := { avg := 0, last := 0, lastTrigger := -80 },
          treble := { avg := 0, last := 0, lastTrigger := -80 } }).1.notes = [] :=
  ⟨by norm_num [MIN_SILENCE_GAP],
    trySpawn_cooldown_suppression_rejects 501 100 800 Band.bass
      { notes := [], score := 0, combo := 0, activeShape := Shape.circle,
        lastNoteId := 0, lastSpawnTime := -250, lastShapeChangeTime := 0 }
      { bass := { avg := 0, last := 0, lastTrigger := 490 },
        mid := { avg := 0, last := 0, lastTrigger := -80 },
        treble := { avg := 0, last := 0, lastTrigger := -80 } }
      (by norm_num [MIN_SILENCE_GAP])
      ⟨by norm_num [ENERGY_THRESHOLD],
        by norm_num [BandEnergyMap.get, PEAK_MULTIPLIER],
        by norm_num [BandEnergyMap.get, PEAK_DELTA]⟩
      (by norm_num [BandEnergyMap.get, BAND_COOLDOWN_MS])⟩

/-- C2 evaluated at its failing input: a pending active-shape note
(spawn 0, travelTime 2000, hitTime 2000) on an 800 px viewport, at
`now = 2421 > hitTime + HIT_WINDOW_MS`, with score 100 and combo 3.
The miss branch of `update` additionally requires the note to sit
ABOVE the hit zone (`noteBottomY < hitTop − entrySlack`), which a note
past its hit time never does (it is already below the hit line), so
the tick leaves the note pending and score/combo untouched — the
timeout miss, penalty and combo reset claimed by the spec never fire. -/
theorem update_timeout_leaves_note_pending :
    updateNotes 2421 800 Shape.circle
        [{ id := 1, shape := Shape.circle, spawnTime := 0, hitTime := 2000,
           travelTime := 2000, hit := false, missed := false, hasElement := true }]
        100 3 =
      ([{ id := 1, shape := Shape.circle, spawnTime := 0, hitTime := 2000,
          travelTime := 2000, hit := false, missed := false, hasElement := true }],
        100, 3, false) := by
  norm_num [updateNotes, getNotePosition, hitProgress, getHitboxMetrics,
    NOTE_SIZE, EXPECTED_SHAPE_SIZE, HIT_ZONE_OFFSET, HIT_CENTER_BIAS, HIT_WINDOW_MS]

lemma findClosestAux_index_lt (ct sh : ℚ) :
    ∀ (rest : List Note) (start : ℕ) (acc : Option (ℕ × Note × ℚ)),
      (∀ j m e, acc = some (j, m, e) → j < start) →
      ∀ i n d, findClosestAux ct sh rest start acc = some (i, n, d) →
        i < start + rest.length := by
  intro rest
  induction rest with
  | nil =>
    intro start acc hacc i n d h
    rw [findClosestAux] at h
    exact lt_of_lt_of_le (hacc i n d h) (Nat.le_add_right start 0)
  | cons note tail ih =>
    intro start acc hacc i n d h
    rw [findClosestAux] at h
    have hstep : i < (start + 1) + tail.length := by
      apply ih (start + 1) _ _ i n d h
      intro j m e hj
      dsimp only at hj
      by_cases hp : (note.hit || note.missed) = true
      · rw [if_pos hp] at hj
        exact Nat.lt_succ_of_lt (hacc j m e hj)
      · rw [if_neg hp] at hj
        by_cases hta : tapAccepts ct sh note = true
        · rw [if_pos hta] at hj
          rcases hae : acc with _ | ⟨⟨j0, m0, d0⟩⟩
          · rw [hae] at hj
            simp at hj
            omega
          · rw [hae] at hj
            dsimp only at hj
            split_ifs at hj with hlt
            · simp at hj
              omega
            · simp at hj
              have := hacc j0 m0 d0 hae
              omega
        · rw [if_neg hta] at hj
          exact Nat.lt_succ_of_lt (hacc j m e hj)
    simpa [Nat.add_comm, Nat.add_assoc, Nat.add_left_comm] using hstep

/-- C1: when the candidate search of `handleTap` finds a pending note
inside both the time and the spatial window, and that note's shape
equals the active shape, the tap adds exactly `100 × (combo + 1)` to
the score, increments the combo, and marks the note hit. -/
theorem handleTap_hit_scoring (ct sh : ℚ) (nextBand trackBand : Band) (s : GameState)
    (i : ℕ) (note : Note) (d : ℚ)
    (hfind : findClosestAux ct sh s.notes 0 none = some (i, note, d))
    (hshape : note.shape = s.activeShape) :
    (handleTap ct sh nextBand trackBand s).1.score = s.score + 100 * ((s.combo : ℤ) + 1) ∧
    (handleTap ct sh nextBand trackBand s).1.combo = s.combo + 1 ∧
    ({ note with hit := true, hasElement := false } : Note) ∈
      (handleTap ct sh nextBand trackBand s).1.notes := by
  have hlen : i < s.notes.length := by
    have := findClosestAux_index_lt ct sh s.notes 0 none
      (by intro j m e hj; simp at hj) i note d hfind
    simpa using this
  have hmem1 : ({ note with hit := true, hasElement := false } : Note) ∈
      s.notes.set i { note with hit := true, hasElement := false } :=
    List.mem_set s.notes i hlen _
  have hmemfilter : ∀ (shape1 shape2 : Shape),
      ({ note with hit := true, hasElement := false } : Note) ∈
        explodeAndClearActiveNotes shape2
          (explodeAndClearActiveNotes shape1
            (s.notes.set i { note with hit := true, hasElement := false })) := by
    intro shape1 shape2
    unfold explodeAndClearActiveNotes
    exact List.mem_filter.mpr ⟨List.mem_filter.mpr ⟨hmem1, by simp⟩, by simp⟩
  unfold handleTap
  rw [hfind]
  dsimp only
  rw [if_pos hshape]
  split_ifs with hlock
  · exact ⟨rfl, rfl, hmemfilter s.activeShape (getShapeFromBand nextBand)⟩
  · exact ⟨rfl, rfl, hmemfilter s.activeShape s.activeShape⟩

/-- Witness for C1: Scenario A — a bass/circle note with travel time
2300 tapped exactly at its hit time with combo 0 scores 100. -/
theorem handleTap_hit_scoring_witness :
    findClosestAux 2300 800
        [{ id := 1, shape := Shape.circle, spawnTime := 0, hitTime := 2300,
           travelTime := 2300, hit := false, missed := false, hasElement := true }] 0 none =
      some (0,
        { id := 1, shape := Shape.circle, spawnTime := 0, hitTime := 2300,
          travelTime := 2300, hit := false, missed := false, hasElement := true }, 0) ∧
    (handleTap 2300 800 Band.mid Band.bass
        { notes := [{ id := 1, shape := Shape.circle, spawnTime := 0, hitTime := 2300,
                      travelTime := 2300, hit := false, missed := false, hasElement := true }],
          score := 0, combo := 0, activeShape := Shape.circle,
          lastNoteId := 1, lastSpawnTime := 0, lastShapeChangeTime := 0 }).1.score =
      0 + 100 * ((0 : ℤ) + 1) ∧
    (handleTap 2300 800 Band.mid Band.bass
        { notes := [{ id := 1, shape := Shape.circle, spawnTime := 0, hitTime := 2300,
                      travelTime := 2300, hit := false, missed := false, hasElement := true }],
          score := 0, combo := 0, activeShape := Shape.circle,
          lastNoteId := 1, lastSpawnTime := 0, lastShapeChangeTime := 0 }).1.combo = 0 + 1 ∧
    ({ id := 1, shape := Shape.circle, spawnTime := 0, hitTime := 2300,
       travelTime := 2300, hit := true, missed := false, hasElement := false } : Note) ∈
      (handleTap 2300 800 Band.mid Band.bass
        { notes := [{ id := 1, shape := Shape.circle, spawnTime := 0, hitTime := 2300,
                      travelTime := 2300, hit := false, missed := false, hasElement := true }],
          score := 0, combo := 0, activeShape := Shape.circle,
          lastNoteId := 1, lastSpawnTime := 0, lastShapeChangeTime := 0 }).1.notes := by
  have hfind : findClosestAux 2300 800
      [{ id := 1, shape := Shape.circle, spawnTime := 0, hitTime := 2300,
         travelTime := 2300, hit := false, missed := false, hasElement := true }] 0 none =
      some (0,
        { id := 1, shape := Shape.circle, spawnTime := 0, hitTime := 2300,
          travelTime := 2300, hit := false, missed := false, hasElement := true }, 0) := by
    norm_num [findClosestAux, tapAccepts, getNotePosition, hitProgress, getHitboxMetrics,
      NOTE_SIZE, EXPECTED_SHAPE_SIZE, HIT_ZONE_OFFSET, HIT_CENTER_BIAS, HIT_WINDOW_MS]
  have h := handleTap_hit_scoring 2300 800 Band.mid Band.bass
    { notes := [{ id := 1, shape := Shape.circle, spawnTime := 0, hitTime := 2300,
                  travelTime := 2300, hit := false, missed := false, hasElement := true }],
      score := 0, combo := 0, activeShape := Shape.circle,
      lastNoteId := 1, lastSpawnTime := 0, lastShapeChangeTime := 0 }
    0 { id := 1, shape := Shape.circle, spawnTime := 0, hitTime := 2300,
        travelTime := 2300, hit := false, missed := false, hasElement := true } 0 hfind rfl
  exact ⟨hfind, h.1, h.2.1, h.2.2⟩

lemma mem_clear_pending (shape : Shape) (notes : List Note) (n : Note)
    (hmem : n ∈ explodeAndClearActiveNotes shape notes)
    (hhit : n.hit = false) (hmiss : n.missed = false) :
    n ∈ notes ∧ (n.shape = shape ∨ n.hasElement = false) := by
  unfold explodeAndClearActiveNotes at hmem
  rcases List.mem_filter.mp hmem with ⟨hin, hpred⟩
  refine ⟨hin, ?_⟩
  simp only [hhit, hmiss, Bool.false_or, Bool.or_eq_true, decide_eq_true_eq,
    Bool.not_eq_true'] at hpred
  exact hpred

/-- C5: after a `trySpawnNote` call that actually creates a note (the
id counter advanced), and after any completed tap resolution, every
pending note that still owns its element... in fact every pending note
at all, given that pending notes own elements on entry, has the
current active shape: non-matching pending notes are purged. -/
theorem live_notes_match_activeShape (ct energy sh : ℚ) (nextBand trackBand : Band)
    (s : GameState) (bands : BandEnergyMap)
    (hElem : ∀ n ∈ s.notes, n.hit = false → n.missed = false → n.hasElement = true)
    (hShape : s.activeShape = getShapeFromBand trackBand) :
    ((trySpawnNote ct energy sh trackBand s bands).1.lastNoteId ≠ s.lastNoteId →
      ∀ n ∈ (trySpawnNote ct energy sh trackBand s bands).1.notes,
        n.hit = false → n.missed = false →
        n.shape = (trySpawnNote ct energy sh trackBand s bands).1.activeShape) ∧
    (∀ n ∈ (handleTap ct sh nextBand trackBand s).1.notes,
      n.hit = false → n.missed = false →
      n.shape = (handleTap ct sh nextBand trackBand s).1.activeShape) := by
  constructor
  · unfold trySpawnNote
    dsimp only
    split_ifs <;> first
      | (intro hid; exact absurd rfl hid)
      | (intro _ n hn hhit hmiss
         rcases List.mem_append.mp hn with hn1 | hn1
         · rcases mem_clear_pending s.activeShape s.notes n hn1 hhit hmiss with ⟨hin, hor⟩
           rcases hor with hsh | hel
           · exact hsh
           · exact absurd (hElem n hin hhit hmiss) (by simp [hel])
         · rcases List.mem_singleton.mp hn1 with rfl
           exact hShape.symm)
  · unfold handleTap
    rcases hfind : findClosestAux ct sh s.notes 0 none with _ | ⟨⟨i, closestNote, d⟩⟩
    · dsimp only
      intro n hn hhit hmiss
      rcases mem_clear_pending s.activeShape s.notes n hn hhit hmiss with ⟨hin, hor⟩
      rcases hor with hsh | hel
      · exact hsh
      · exact absurd (hElem n hin hhit hmiss) (by simp [hel])
    · dsimp only
      split_ifs with hshape hlock <;> intro n hn hhit hmiss
      · rcases mem_clear_pending _ _ n hn hhit hmiss with ⟨hn2, hor2⟩
        rcases mem_clear_pending _ _ n hn2 hhit hmiss with ⟨hn1, hor1⟩
        have hin : n ∈ s.notes := by
          rcases List.mem_or_eq_of_mem_set hn1 with hin | rfl
          · exact hin
          · simp at hhit
        rcases hor2 with hsh | hel
        · exact hsh
        · exact absurd (hElem n hin hhit hmiss) (by simp [hel])
      · rcases mem_clear_pending _ _ n hn hhit hmiss with ⟨hn2, hor2⟩
        rcases mem_clear_pending _ _ n hn2 hhit hmiss with ⟨hn1, hor1⟩
        have hin : n ∈ s.notes := by
          rcases List.mem_or_eq_of_mem_set hn1 with hin | rfl
          · exact hin
          · simp at hhit
        rcases hor2 with hsh | hel
        · exact hsh
        · exact absurd (hElem n hin hhit hmiss) (by simp [hel])
      · rcases mem_clear_pending s.activeShape s.notes n hn hhit hmiss with ⟨hin, hor⟩
        rcases hor with hsh | hel
        · exact hsh
        · exact absurd (hElem n hin hhit hmiss) (by simp [hel])

/-- Witness for C5: at `now = 300` with a clear bass peak, the spawn
succeeds (id counter advances) and the square distractor is purged;
the tap at the same state also purges it. -/
theorem live_notes_match_activeShape_witness :
    (∀ n ∈ spawnScenarioState.notes,
      n.hit = false → n.missed = false → n.hasElement = true) ∧
    spawnScenarioState.activeShape = getShapeFromBand Band.bass ∧
    (((trySpawnNote 300 100 800 Band.bass spawnScenarioState spawnScenarioBands).1.lastNoteId ≠
        spawnScenarioState.lastNoteId →
      ∀ n ∈ (trySpawnNote 300 100 800 Band.bass spawnScenarioState spawnScenarioBands).1.notes,
        n.hit = false → n.missed = false →
        n.shape =
          (trySpawnNote 300 100 800 Band.bass spawnScenarioState spawnScenarioBands).1.activeShape) ∧
      (∀ n ∈ (handleTap 300 800 Band.mid Band.bass spawnScenarioState).1.notes,
        n.hit = false → n.missed = false →
        n.shape = (handleTap 300 800 Band.mid Band.bass spawnScenarioState).1.activeShape)) := by
  have hElem : ∀ n ∈ spawnScenarioState.notes,
      n.hit = false → n.missed = false → n.hasElement = true := by
    intro n hn h1 h2
    rcases List.mem_singleton.mp hn with rfl
    rfl
  exact ⟨hElem, rfl,
    live_notes_match_activeShape 300 100 800 Band.mid Band.bass
      spawnScenarioState spawnScenarioBands hElem rfl⟩

lemma tapAccepts_false_offscreen (ct sh : ℚ) (n : Note)
    (h : getNotePosition n ct sh > sh + NOTE_SIZE + 50) :
    tapAccepts ct sh n = false := by
  rcases Bool.eq_false_or_eq_true (tapAccepts ct sh n) with hta | hta
  · exfalso
    simp only [tapAccepts, Bool.and_eq_true, Bool.not_eq_true', decide_eq_false_iff_not,
      not_lt] at hta
    obtain ⟨⟨⟨hB, hY⟩, hD⟩, hT⟩ := hta
    simp only [getHitboxMetrics, NOTE_SIZE, EXPECTED_SHAPE_SIZE, HIT_ZONE_OFFSET,
      HIT_CENTER_BIAS] at hD h
    have hcenter : getNotePosition n ct sh + 60 / 2 > sh - 100 - 100 / 2 - 0 := by linarith
    rw [if_pos hcenter] at hD
    rw [abs_of_pos (by linarith)] at hD
    linarith
  · exact hta

lemma hittable_cond_eq_tapAccepts_above (ct sh : ℚ) (n : Note)
    (hc : getNotePosition n ct sh + NOTE_SIZE / 2 > (getHitboxMetrics sh).hitCenterY) :
    (decide (|ct - n.hitTime| ≤ HIT_WINDOW_MS) &&
      decide (|getNotePosition n ct sh + NOTE_SIZE / 2 - (getHitboxMetrics sh).hitCenterY| ≤
        (getHitboxMetrics sh).hitboxRadius + NOTE_SIZE / 2 - NOTE_SIZE * (4 / 10) +
          (getHitboxMetrics sh).hitboxRadius * (1 / 2)) &&
      decide (getNotePosition n ct sh + NOTE_SIZE ≥
        (getHitboxMetrics sh).hitTop - NOTE_SIZE * (1 / 10)) &&
      decide (getNotePosition n ct sh ≥
        (getHitboxMetrics sh).hitTop + (getHitboxMetrics sh).hitboxRadius * (1 / 4))) =
    tapAccepts ct sh n := by
  rw [tapAccepts]
  rw [if_pos hc]
  rw [Bool.eq_iff_iff]
  simp only [Bool.and_eq_true, decide_eq_true_eq, Bool.not_eq_true', decide_eq_false_iff_not,
    not_lt, ge_iff_le, gt_iff_lt]
  tauto

lemma hittable_cond_eq_tapAccepts_below (ct sh : ℚ) (n : Note)
    (hc : ¬(getNotePosition n ct sh + NOTE_SIZE / 2 > (getHitboxMetrics sh).hitCenterY)) :
    (decide (|ct - n.hitTime| ≤ HIT_WINDOW_MS) &&
      decide (|getNotePosition n ct sh + NOTE_SIZE / 2 - (getHitboxMetrics sh).hitCenterY| ≤
        (getHitboxMetrics sh).hitboxRadius + NOTE_SIZE / 2 - NOTE_SIZE * (4 / 10)) &&
      decide (getNotePosition n ct sh + NOTE_SIZE ≥
        (getHitboxMetrics sh).hitTop - NOTE_SIZE * (1 / 10)) &&
      decide (getNotePosition n ct sh ≥
        (getHitboxMetrics sh).hitTop + (getHitboxMetrics sh).hitboxRadius * (1 / 4))) =
    tapAccepts ct sh n := by
  rw [tapAccepts]
  rw [if_neg hc]
  rw [Bool.eq_iff_iff]
  simp only [Bool.and_eq_true, decide_eq_true_eq, Bool.not_eq_true', decide_eq_false_iff_not,
    not_lt, ge_iff_le, gt_iff_lt]
  tauto

/-- C8: the `hittableNow` flag published by the per-frame update is
true exactly when some pending note passes the same time-plus-space
acceptance test (`tapAccepts`) that tap judgment uses to admit a
candidate. -/
theorem hittable_iff_judgment (ct sh : ℚ) (activeShape : Shape) :
    ∀ (notes : List Note) (score : ℤ) (combo : ℕ),
      (updateNotes ct sh activeShape notes score combo).2.2.2 =
        notes.any (fun n => !n.hit && !n.missed && tapAccepts ct sh n) := by
  intro notes
  induction notes with
  | nil => intro score combo; simp [updateNotes]
  | cons note rest ih =>
    intro score combo
    rw [updateNotes, List.any_cons]
    dsimp only
    by_cases hoff : getNotePosition note ct sh > sh + NOTE_SIZE + 50
    · rw [if_pos hoff, ih score combo, tapAccepts_false_offscreen ct sh note hoff]
      simp
    · rw [if_neg hoff]
      by_cases hhit : note.hit = true
      · rw [if_pos hhit]
        by_cases hgrace : ct - note.hitTime > 200
        · rw [if_pos hgrace, ih score combo]
          simp [hhit]
        · rw [if_neg hgrace]
          rw [ih score combo]
          simp [hhit]
      · rw [if_neg hhit]
        rw [Bool.not_eq_true] at hhit
        by_cases hmiss : note.missed = true
        · rw [if_pos hmiss]
          rw [ih score combo]
          simp [hmiss]
        · rw [if_neg hmiss]
          rw [Bool.not_eq_true] at hmiss
          by_cases hc : getNotePosition note ct sh + NOTE_SIZE / 2 >
              (getHitboxMetrics sh).hitCenterY
          · rw [if_pos hc]
            split
            · rw [ih, hittable_cond_eq_tapAccepts_above ct sh note hc]
              simp [hhit, hmiss, Bool.or_comm]
            · rw [ih score combo, hittable_cond_eq_tapAccepts_above ct sh note hc]
              simp [hhit, hmiss, Bool.or_comm]
          · rw [if_neg hc]
            split
            · rw [ih, hittable_cond_eq_tapAccepts_below ct sh note hc]
              simp [hhit, hmiss, Bool.or_comm]
            · rw [ih score combo, hittable_cond_eq_tapAccepts_below ct sh note hc]
              simp [hhit, hmiss, Bool.or_comm]

end Polybeat
